import Mathlib

/-!
# Verification of the d-vhs movie-collection tracker (`app.py`)

A shallow embedding of the Flask application `app.py`: the relational state
(`Film`, `LendingRequest`, `Benutzer` tables) becomes an explicit `AppState`
record, and each route handler becomes a pure function
`AppState → ... → Outcome × AppState`.  Side conditions of the web framework
are modelled explicitly:

* `request.form.get(k)` may yield `None`, so form fields are `Option String`;
  Python truthiness (`if not x:`) on such values is `truthy`.
* The session is modelled by the `Option Nat` (user id) or `Option String`
  (user name) value the handler reads from it.
* `datetime.now()` is a clock reading passed in as a parameter.
* The external TMDb fetch result is passed in as a parameter
  (`Option FilmData`, `none` for any fetch failure); the handler's behaviour
  after the fetch is modelled faithfully.
* `werkzeug`'s `generate_password_hash` / `check_password_hash` are external
  library functions and are passed as function parameters.
* Database commits are atomic: a handler either returns the old state
  unchanged (error paths, where the code only flashes and redirects) or the
  fully updated state.
-/

/-- Python truthiness for a nullable string: `None` and `""` are falsy. -/
def truthy : Option String → Bool
  | none => false
  | some s => s != ""

/-- Helper for `pyInt`: after the first digit, Python accepts digits with
single underscores strictly between digits (`int("1_0") = 10`). -/
def pyDigitsRest : List Char → Bool
  | [] => true
  | c :: rest =>
    if c = '_' then
      match rest with
      | [] => false
      | d :: rest2 => d.isDigit && pyDigitsRest rest2
    else
      c.isDigit && pyDigitsRest rest

/-- A nonempty run of ASCII digits, with single underscores allowed between
digits (the body of a Python integer literal accepted by `int(...)`). -/
def pyDigits : List Char → Bool
  | [] => false
  | c :: rest => c.isDigit && pyDigitsRest rest

/-- Numeric value of a digit run, skipping underscores. -/
def digitsVal (cs : List Char) : Nat :=
  cs.foldl (fun acc c => if c = '_' then acc else acc * 10 + (c.toNat - '0'.toNat)) 0

/-- Strip leading and trailing whitespace, as Python `str.strip()` /
`int(...)` do before parsing. -/
def pyTrim (cs : List Char) : List Char :=
  ((cs.dropWhile Char.isWhitespace).reverse.dropWhile Char.isWhitespace).reverse

/-- Python `int(s)`: strip surrounding whitespace, optional sign, digit run
(with underscore separators).  Returns `none` where Python raises
`ValueError`. -/
def pyInt (s : String) : Option Int :=
  match pyTrim s.toList with
  | '+' :: rest => if pyDigits rest then some (digitsVal rest) else none
  | '-' :: rest => if pyDigits rest then some (-(digitsVal rest : Int)) else none
  | cs => if pyDigits cs then some (digitsVal cs) else none

/-- Gregorian leap year, as used by `datetime`. -/
def leapYear (y : Nat) : Bool :=
  (y % 4 = 0 && y % 100 ≠ 0) || y % 400 = 0

/-- Days in a month, as validated by the `datetime` constructor. -/
def daysInMonth (y m : Nat) : Nat :=
  if m = 2 then (if leapYear y then 29 else 28)
  else if m = 4 || m = 6 || m = 9 || m = 11 then 30
  else 31

/-- Split a character list at every `'-'` (the separator of the
`"%Y-%m-%d"` format). -/
def splitDash : List Char → List (List Char)
  | [] => [[]]
  | c :: rest =>
    if c = '-' then [] :: splitDash rest
    else
      match splitDash rest with
      | [] => [[c]]
      | g :: gs => (c :: g) :: gs

/-- `datetime.strptime(s, "%Y-%m-%d")`: `%Y` matches exactly four digits,
`%m` one or two digits with value 1..12, `%d` one or two digits with value
1..31; the whole string must be consumed; the `datetime` constructor then
checks `1 ≤ year` and that the day exists in the month.  Returns the parsed
`(year, month, day)` or `none` where Python raises `ValueError`. -/
def strptimeYmd (s : String) : Option (Nat × Nat × Nat) :=
  match splitDash s.toList with
  | [ys, ms, ds] =>
    if ys.length = 4 && ys.all Char.isDigit
        && 1 ≤ ms.length && ms.length ≤ 2 && ms.all Char.isDigit
        && 1 ≤ ds.length && ds.length ≤ 2 && ds.all Char.isDigit then
      let y := digitsVal ys
      let m := digitsVal ms
      let d := digitsVal ds
      if 1 ≤ y && 1 ≤ m && m ≤ 12 && 1 ≤ d && d ≤ 31 && d ≤ daysInMonth y m then
        some (y, m, d)
      else none
    else none
  | _ => none

/-- A `datetime` value: either a clock reading from `datetime.now()`
(abstracted as a tick count) or a calendar date from `strptime`. -/
inductive Timestamp where
  | now (t : Nat)
  | date (y m d : Nat)
deriving Repr, DecidableEq

/-- Row of the `film` table (`class Film(db.Model)`). -/
structure Film where
  id : Nat
  title : String
  year : Option Int
  beschreibung : Option String
  tmdb_id : Option String
  poster_url : Option String
  besitzer : Option String
  verliehen_an : Option String
  verliehen_seit : Option Timestamp
  genres : String
  wunschliste : Bool
deriving Repr, DecidableEq

/-- Row of the `lending_request` table (`class LendingRequest(db.Model)`). -/
structure LendingRequest where
  id : Nat
  borrower_id : Nat
  owner_id : Nat
  film_id : Nat
deriving Repr, DecidableEq

/-- Row of the `benutzer` table (`class Benutzer(db.Model)`). -/
structure Benutzer where
  id : Nat
  name : String
  password_hash : String
  is_admin : Bool
deriving Repr, DecidableEq

/-- The whole database, plus the autoincrement counters of the three
primary keys. -/
structure AppState where
  films : List Film
  requests : List LendingRequest
  users : List Benutzer
  nextFilmId : Nat
  nextRequestId : Nat
  nextUserId : Nat
deriving Repr, DecidableEq

/-- The empty database the application starts from. -/
def initState : AppState :=
  { films := [], requests := [], users := [], nextFilmId := 1, nextRequestId := 1, nextUserId := 1 }

/-- `Film.query.get(film_id)` / `get_or_404`. -/
def findFilm (st : AppState) (film_id : Nat) : Option Film :=
  st.films.find? (fun f => f.id == film_id)

/-- `Benutzer.query.filter_by(name=n).first()`. -/
def findUserByName (st : AppState) (n : String) : Option Benutzer :=
  st.users.find? (fun u => u.name == n)

/-- `Benutzer.query.get(uid)` / `filter_by(id=uid).first()`. -/
def findUserById (st : AppState) (uid : Nat) : Option Benutzer :=
  st.users.find? (fun u => u.id == uid)

/-- `LendingRequest.query.get(rid)` / `get_or_404`. -/
def findRequestById (st : AppState) (rid : Nat) : Option LendingRequest :=
  st.requests.find? (fun r => r.id == rid)

/-- Outcome of one request: the HTTP/flash effect visible to the caller.
`ok` is a success (redirect, possibly with a success flash), the others are
the failure modes of the handlers. -/
inductive Outcome where
  | ok (msg : String)
  | warn (msg : String)
  | err (msg : String)
  | notFound
  | needLogin
  | redirectHome (msg : String)
  | crash
deriving Repr, DecidableEq

/-- The `admin_erforderlich` decorator: redirect to login when no session,
redirect home when the session user is missing or not an admin. -/
def checkAdmin (st : AppState) (sessionUid : Option Nat) : Option Outcome :=
  match sessionUid with
  | none => some .needLogin
  | some uid =>
    match findUserById st uid with
    | none => some (.redirectHome "Du hast keine Admin-Berechtigung")
    | some u => if u.is_admin then none else some (.redirectHome "Du hast keine Admin-Berechtigung")

/-- The successful result of `fetch_film_data_tmdb`: the dictionary it
returns (title, release_date, overview, tmdb_id, poster_url, genres). -/
structure FilmData where
  title : String
  release_date : Option String
  overview : Option String
  tmdb_id : String
  poster_url : Option String
  genres : String
deriving Repr, DecidableEq

/-- Route `POST /add` (`add_film`), behind `login_erforderlich`.  The TMDb
fetch is external; `fetched` is its result (`none` for the `ValueError` /
network / unexpected exception paths, all of which leave the state
unchanged).  The new row's year is `int(release_date[:4])` when
`release_date` is truthy (a failing `int` raises `ValueError`, caught with
an error flash and no state change), the owner is the session user's name,
and the wishlist flag is set iff the submitted `action` is `"wishlist"`
(its form default is `"have"`). -/
def add_film (st : AppState) (sessionUid : Option Nat) (tmdb_input : Option String)
    (fetched : Option FilmData) (action : Option String) : Outcome × AppState :=
  match sessionUid with
  | none => (.needLogin, st)
  | some uid =>
    if !truthy tmdb_input then (.err "Keine TMDb-ID angegeben", st)
    else
      match fetched with
      | none => (.err "TMDb-Abruf fehlgeschlagen", st)
      | some film_data =>
        match st.films.find? (fun f => f.tmdb_id == some film_data.tmdb_id) with
        | some existing =>
          (.warn ("Film '" ++ existing.title ++ "' ist bereits in der Sammlung"), st)
        | none =>
          let year? : Option (Option Int) :=
            if truthy film_data.release_date then
              match pyInt ((film_data.release_date.getD "").take 4) with
              | none => none
              | some y => some (some y)
            else some none
          match year? with
          | none => (.err "Ein unerwarteter Fehler ist aufgetreten", st)
          | some year =>
            let current := findUserById st uid
            let film : Film :=
              { id := st.nextFilmId
                title := film_data.title
                year := year
                beschreibung := film_data.overview
                tmdb_id := some film_data.tmdb_id
                poster_url := film_data.poster_url
                besitzer := current.map (fun u => u.name)
                verliehen_an := none
                verliehen_seit := none
                genres := film_data.genres
                wunschliste := action.getD "have" == "wishlist" }
            (.ok ("Film '" ++ film.title ++ "' erfolgreich hinzugefügt"),
              { st with films := st.films ++ [film], nextFilmId := st.nextFilmId + 1 })

/-- Route `POST /film/<id>/besitzer` (`update_besitzer`), behind
`login_erforderlich` and `admin_erforderlich`.  An empty-string form value
clears the owner; otherwise the named user must exist. -/
def update_besitzer (st : AppState) (sessionUid : Option Nat) (film_id : Nat)
    (besitzer : Option String) : Outcome × AppState :=
  match checkAdmin st sessionUid with
  | some o => (o, st)
  | none =>
    match findFilm st film_id with
    | none => (.notFound, st)
    | some film =>
      if besitzer = some "" then
        (.ok ("Besitzer für '" ++ film.title ++ "' entfernt"),
          { st with films := st.films.map (fun f =>
              if f.id == film_id then { f with besitzer := none } else f) })
      else
        match findUserByName st (besitzer.getD "") with
        | none => (.err ("Benutzer '" ++ besitzer.getD "" ++ "' nicht gefunden"), st)
        | some _ =>
          (.ok ("'" ++ film.title ++ "' gehört jetzt " ++ besitzer.getD ""),
            { st with films := st.films.map (fun f =>
                if f.id == film_id then { f with besitzer := besitzer } else f) })

/-- Route `POST /film/<id>/wunschliste` (`toggle_wunschliste`), behind
`login_erforderlich`. -/
def toggle_wunschliste (st : AppState) (sessionUid : Option Nat) (film_id : Nat) :
    Outcome × AppState :=
  match sessionUid with
  | none => (.needLogin, st)
  | some _ =>
    match findFilm st film_id with
    | none => (.notFound, st)
    | some film =>
      (.ok film.title,
        { st with films := st.films.map (fun f =>
            if f.id == film_id then { f with wunschliste := !f.wunschliste } else f) })

/-- Route `POST /film/<id>/verleihen` (`verleihen`), behind
`login_erforderlich`.  Requires a truthy target name naming an existing
user and an un-loaned film; the loan timestamp is `datetime.now()` when
no date was submitted, else `strptime(date, "%Y-%m-%d")`, whose failure
aborts with an error.  On success both loan fields are set and every
pending request for this film by the target borrower is deleted. -/
def verleihen (st : AppState) (sessionUid : Option Nat) (film_id : Nat)
    (verliehen_an verliehen_datum : Option String) (now : Nat) : Outcome × AppState :=
  match sessionUid with
  | none => (.needLogin, st)
  | some _ =>
    match findFilm st film_id with
    | none => (.notFound, st)
    | some film =>
      if !truthy verliehen_an then (.err "Bitte einen Benutzer auswählen", st)
      else
        let target := verliehen_an.getD ""
        match findUserByName st target with
        | none => (.err ("Benutzer '" ++ target ++ "' nicht gefunden"), st)
        | some _user =>
          if truthy film.verliehen_an then
            (.warn ("Film ist bereits an " ++ film.verliehen_an.getD "" ++ " verliehen"), st)
          else
            let seit? : Option Timestamp :=
              if truthy verliehen_datum then
                match strptimeYmd (verliehen_datum.getD "") with
                | none => none
                | some (y, m, d) => some (.date y m d)
              else some (.now now)
            match seit? with
            | none => (.err "Ungültiges Datum", st)
            | some seit =>
              let films' := st.films.map (fun f =>
                if f.id == film_id then
                  { f with verliehen_an := some target, verliehen_seit := some seit }
                else f)
              let requests' :=
                match findUserByName st target with
                | some borrower =>
                  st.requests.filter (fun r =>
                    !(r.film_id == film_id && r.borrower_id == borrower.id))
                | none => st.requests
              (.ok "", { st with films := films', requests := requests' })

/-- Route `POST /film/<id>/zurueckgeben` (`zurueckgeben`), behind
`login_erforderlich`: requires the film to be loaned; clears both loan
fields. -/
def zurueckgeben (st : AppState) (sessionUid : Option Nat) (film_id : Nat) :
    Outcome × AppState :=
  match sessionUid with
  | none => (.needLogin, st)
  | some _ =>
    match findFilm st film_id with
    | none => (.notFound, st)
    | some film =>
      if !truthy film.verliehen_an then (.warn "Film ist nicht verliehen", st)
      else
        (.ok "",
          { st with films := st.films.map (fun f =>
              if f.id == film_id then
                { f with verliehen_an := none, verliehen_seit := none }
              else f) })

/-- Route `POST /film/<id>/request-lending` (`request_lending`).  The
handler checks the session itself (`benutzer_name`).  Every violated
precondition (no owner, wishlist entry, already loaned, requester is the
owner, an existing request by the requester, or owner name matching no
user) redirects silently with no state change; otherwise one new
`LendingRequest` row is inserted. -/
def request_lending (st : AppState) (sessionName : Option String) (film_id : Nat) :
    Outcome × AppState :=
  match sessionName with
  | none => (.needLogin, st)
  | some sname =>
    match findUserByName st sname with
    | none => (.err "Benutzer nicht gefunden!", st)
    | some benutzer =>
      match findFilm st film_id with
      | none => (.notFound, st)
      | some film =>
        if !truthy film.besitzer then (.ok "", st)
        else if film.wunschliste then (.ok "", st)
        else if truthy film.verliehen_an then (.ok "", st)
        else if film.besitzer == some benutzer.name then (.ok "", st)
        else if (st.requests.find? (fun r =>
            r.film_id == film_id && r.borrower_id == benutzer.id)).isSome then
          (.ok "", st)
        else
          match findUserByName st (film.besitzer.getD "") with
          | none => (.ok "", st)
          | some owner =>
            let lr : LendingRequest :=
              { id := st.nextRequestId
                borrower_id := benutzer.id
                owner_id := owner.id
                film_id := film_id }
            (.ok "", { st with requests := st.requests ++ [lr],
                               nextRequestId := st.nextRequestId + 1 })

/-- Route `POST /lending-request/<id>/delete` (`delete_lending_request`),
behind `login_erforderlich`: deletes the row. -/
def delete_lending_request (st : AppState) (sessionUid : Option Nat) (request_id : Nat) :
    Outcome × AppState :=
  match sessionUid with
  | none => (.needLogin, st)
  | some _ =>
    match findRequestById st request_id with
    | none => (.notFound, st)
    | some _ =>
      (.ok "", { st with requests := st.requests.filter (fun r => r.id != request_id) })

/-- Route `POST /benutzer/add` (`add_benutzer`), behind
`login_erforderlich` and `admin_erforderlich`.  `gen` is werkzeug's
`generate_password_hash`.  Name and password are stripped; an empty
value or an existing name aborts; the new user is not an admin. -/
def add_benutzer (gen : String → String) (st : AppState) (sessionUid : Option Nat)
    (name password : Option String) : Outcome × AppState :=
  match checkAdmin st sessionUid with
  | some o => (o, st)
  | none =>
    let n := (name.getD "").trim
    let p := (password.getD "").trim
    if n = "" then (.err "Bitte einen Namen eingeben", st)
    else if p = "" then (.err "Bitte ein Passwort eingeben", st)
    else
      match findUserByName st n with
      | some _ => (.warn ("Benutzer '" ++ n ++ "' existiert bereits"), st)
      | none =>
        let user : Benutzer :=
          { id := st.nextUserId, name := n, password_hash := gen p, is_admin := false }
        (.ok ("Benutzer '" ++ n ++ "' hinzugefügt"),
          { st with users := st.users ++ [user], nextUserId := st.nextUserId + 1 })

/-- Route `POST /benutzer/delete/<id>` (`delete_benutzer`), behind
`admin_erforderlich`.  A user owning films (by `besitzer` name match)
cannot be deleted; otherwise the user row and every `LendingRequest`
naming the user as borrower or owner are deleted. -/
def delete_benutzer (st : AppState) (sessionUid : Option Nat) (user_id : Nat) :
    Outcome × AppState :=
  match checkAdmin st sessionUid with
  | some o => (o, st)
  | none =>
    match findUserById st user_id with
    | none => (.notFound, st)
    | some user =>
      let filme_count := (st.films.filter (fun f => f.besitzer == some user.name)).length
      if filme_count > 0 then
        (.err ("Benutzer '" ++ user.name ++ "' kann nicht gelöscht werden"), st)
      else
        (.ok ("Benutzer '" ++ user.name ++ "' wurde gelöscht"),
          { st with
              requests := st.requests.filter (fun r =>
                !(r.borrower_id == user_id || r.owner_id == user_id))
              users := st.users.filter (fun u => u.id != user_id) })

/-- Route `POST /change-password` (`change_password`), behind
`login_erforderlich`.  `check` is werkzeug's `check_password_hash`, `gen`
its `generate_password_hash`.  A session id naming no user row makes the
handler dereference `None` (`current_user.check_password`), an unhandled
exception with no commit. -/
def change_password (check : String → String → Bool) (gen : String → String)
    (st : AppState) (sessionUid : Option Nat)
    (old_password new_password new_password_confirm : String) : Outcome × AppState :=
  match sessionUid with
  | none => (.needLogin, st)
  | some uid =>
    match findUserById st uid with
    | none => (.crash, st)
    | some current_user =>
      if !check current_user.password_hash old_password then
        (.err "Altes Passwort ist falsch", st)
      else if new_password != new_password_confirm then
        (.err "Neue Passwörter stimmen nicht überein", st)
      else if new_password == "" || new_password.length < 3 then
        (.err "Neues Passwort muss mindestens 3 Zeichen lang sein", st)
      else
        (.ok "Passwort erfolgreich geändert",
          { st with users := st.users.map (fun u =>
              if u.id == uid then { u with password_hash := gen new_password } else u) })

/-- Route `POST /delete/<id>` (`delete_film`), behind `login_erforderlich`.
Only an admin or the owner may delete; deletion cascades to the film's
lending requests.  A stale session id (no user row) crashes on
`current_user.is_admin`. -/
def delete_film (st : AppState) (sessionUid : Option Nat) (film_id : Nat) :
    Outcome × AppState :=
  match sessionUid with
  | none => (.needLogin, st)
  | some uid =>
    match findFilm st film_id with
    | none => (.notFound, st)
    | some film =>
      match findUserById st uid with
      | none => (.crash, st)
      | some current_user =>
        if !current_user.is_admin && film.besitzer != some current_user.name then
          (.err "Du darfst diesen Film nicht löschen!", st)
        else
          (.ok ("Film '" ++ film.title ++ "' wurde gelöscht"),
            { st with
                requests := st.requests.filter (fun r => r.film_id != film_id)
                films := st.films.filter (fun f => f.id != film_id) })

/-- `needle` occurs as a contiguous sublist of `hay`. -/
def listInfix (needle : List Char) : List Char → Bool
  | [] => needle.isEmpty
  | c :: t => needle.isPrefixOf (c :: t) || listInfix needle t

/-- Case-insensitive substring test: SQL `x ILIKE '%needle%'` for a
needle without wildcard characters. -/
def ilikeContains (hay needle : String) : Bool :=
  listInfix needle.toLower.toList hay.toLower.toList

/-- `index`, owner filter: `if besitzer_filter: ...` — `"ohne"` selects
ownerless films, any other nonempty value selects by owner-name equality. -/
def besitzerStage (films : List Film) (besitzer_filter : String) : List Film :=
  if besitzer_filter != "" then
    if besitzer_filter = "ohne" then films.filter (fun f => f.besitzer == none)
    else films.filter (fun f => f.besitzer == some besitzer_filter)
  else films

/-- `index`, lower year bound: applied only when the parameter is nonempty
and `int(...)` parses it (`except ValueError: pass` ignores it otherwise);
SQL `Film.year >= v` is unsatisfied by a NULL year. -/
def jahrVonStage (l : List Film) (jahr_von : String) : List Film :=
  if jahr_von != "" then
    match pyInt jahr_von with
    | some v => l.filter (fun f =>
        match f.year with
        | some y => decide (v ≤ y)
        | none => false)
    | none => l
  else l

/-- `index`, upper year bound, symmetric to `jahrVonStage`. -/
def jahrBisStage (l : List Film) (jahr_bis : String) : List Film :=
  if jahr_bis != "" then
    match pyInt jahr_bis with
    | some v => l.filter (fun f =>
        match f.year with
        | some y => decide (y ≤ v)
        | none => false)
    | none => l
  else l

/-- `index`, wishlist filter: `"ja"` keeps wishlist rows, `"nein"` keeps
the rest, anything else is no filter. -/
def wunschStage (l : List Film) (wunschliste_filter : String) : List Film :=
  if wunschliste_filter = "ja" then l.filter (fun f => f.wunschliste)
  else if wunschliste_filter = "nein" then l.filter (fun f => !f.wunschliste)
  else l

/-- `index`, genre filter: `Film.genres.ilike(f"%x%")`. -/
def genreStage (l : List Film) (genre_filter : String) : List Film :=
  if genre_filter != "" then l.filter (fun f => ilikeContains f.genres genre_filter)
  else l

/-- The filter chain of route `GET /` (`index`): each query-string
parameter independently narrows the `Film` query, in the order the code
adds the predicates.  `order_by(year.desc())` only permutes the result
(and places NULL years in a backend-dependent position), so the model
returns the filtered list in table order. -/
def index_filter (films : List Film)
    (besitzer_filter jahr_von jahr_bis wunschliste_filter genre_filter : String) :
    List Film :=
  genreStage
    (wunschStage
      (jahrBisStage
        (jahrVonStage (besitzerStage films besitzer_filter) jahr_von)
        jahr_bis)
      wunschliste_filter)
    genre_filter

/-- One state-changing HTTP request, with everything the handler reads
from the outside world (session, form data, clock, external fetch result,
password-hash functions) packaged as arguments. -/
inductive Op where
  | opAddFilm (uid : Option Nat) (tmdb : Option String) (fetched : Option FilmData)
      (action : Option String)
  | opUpdateBesitzer (uid : Option Nat) (fid : Nat) (besitzer : Option String)
  | opToggleWunschliste (uid : Option Nat) (fid : Nat)
  | opVerleihen (uid : Option Nat) (fid : Nat) (an dat : Option String) (now : Nat)
  | opZurueckgeben (uid : Option Nat) (fid : Nat)
  | opRequestLending (sname : Option String) (fid : Nat)
  | opDeleteLendingRequest (uid : Option Nat) (rid : Nat)
  | opAddBenutzer (gen : String → String) (uid : Option Nat) (name pw : Option String)
  | opDeleteBenutzer (uid : Option Nat) (target : Nat)
  | opChangePassword (check : String → String → Bool) (gen : String → String)
      (uid : Option Nat) (old np npc : String)
  | opDeleteFilm (uid : Option Nat) (fid : Nat)

/-- The state after handling one request. -/
def step (op : Op) (st : AppState) : AppState :=
  match op with
  | .opAddFilm uid tmdb fetched action => (add_film st uid tmdb fetched action).2
  | .opUpdateBesitzer uid fid b => (update_besitzer st uid fid b).2
  | .opToggleWunschliste uid fid => (toggle_wunschliste st uid fid).2
  | .opVerleihen uid fid an dat now => (verleihen st uid fid an dat now).2
  | .opZurueckgeben uid fid => (zurueckgeben st uid fid).2
  | .opRequestLending sname fid => (request_lending st sname fid).2
  | .opDeleteLendingRequest uid rid => (delete_lending_request st uid rid).2
  | .opAddBenutzer gen uid name pw => (add_benutzer gen st uid name pw).2
  | .opDeleteBenutzer uid target => (delete_benutzer st uid target).2
  | .opChangePassword check gen uid old np npc =>
      (change_password check gen st uid old np npc).2
  | .opDeleteFilm uid fid => (delete_film st uid fid).2

/-- The state after a sequence of requests. -/
def run (ops : List Op) (st : AppState) : AppState :=
  ops.foldl (fun s o => step o s) st

/-- A film's loan fields are both set or both clear. -/
def loanConsistent (f : Film) : Prop :=
  f.verliehen_an.isSome = f.verliehen_seit.isSome

instance (f : Film) : Decidable (loanConsistent f) := by
  unfold loanConsistent; infer_instance

/-- Invariant of C1: every film row has consistent loan fields. -/
def FilmLoanInv (st : AppState) : Prop :=
  ∀ f ∈ st.films, loanConsistent f

instance (st : AppState) : Decidable (FilmLoanInv st) := by
  unfold FilmLoanInv; infer_instance

/-- Invariant of C2: no two request rows share a (film, borrower) pair. -/
def ReqUnique (st : AppState) : Prop :=
  st.requests.Pairwise (fun a b => ¬(a.film_id = b.film_id ∧ a.borrower_id = b.borrower_id))

instance (st : AppState) : Decidable (ReqUnique st) := by
  unfold ReqUnique; infer_instance

/-- Two film rows never share a present TMDb id. -/
def tmdbDistinct (a b : Film) : Prop :=
  ∀ t, a.tmdb_id = some t → b.tmdb_id ≠ some t

instance (a b : Film) : Decidable (tmdbDistinct a b) :=
  decidable_of_iff (a.tmdb_id = none ∨ a.tmdb_id ≠ b.tmdb_id) (by
    unfold tmdbDistinct
    constructor
    · rintro (h | h) t ht
      · rw [h] at ht; exact absurd ht (by simp)
      · rw [ht] at h; exact fun hb => h hb.symm
    · intro h
      rcases ha : a.tmdb_id with _ | t
      · exact Or.inl rfl
      · refine Or.inr ?_
        intro he
        exact h t ha he.symm)

/-- Invariant of C7: film rows are pairwise distinct in their TMDb id. -/
def TmdbUnique (st : AppState) : Prop :=
  st.films.Pairwise tmdbDistinct

instance (st : AppState) : Decidable (TmdbUnique st) := by
  unfold TmdbUnique; infer_instance

/-! ## Preservation of the loan-field invariant (C1) -/

theorem add_film_loanInv (st : AppState) (uid : Option Nat) (tmdb : Option String)
    (fetched : Option FilmData) (action : Option String) (h : FilmLoanInv st) :
    FilmLoanInv (add_film st uid tmdb fetched action).2 := by
  unfold add_film
  repeat' (first | split | dsimp only)
  any_goals exact h
  all_goals {
    intro f hf
    rcases List.mem_append.mp hf with hf' | hf'
    · exact h f hf'
    · rcases List.mem_singleton.mp hf' with rfl
      rfl }

theorem update_besitzer_loanInv (st : AppState) (uid : Option Nat) (fid : Nat)
    (b : Option String) (h : FilmLoanInv st) :
    FilmLoanInv (update_besitzer st uid fid b).2 := by
  unfold update_besitzer
  repeat' (first | split | dsimp only)
  any_goals exact h
  all_goals {
    intro f hf
    rcases List.mem_map.mp hf with ⟨g, hg, rfl⟩
    split
    · exact h g hg
    · exact h g hg }

theorem toggle_wunschliste_loanInv (st : AppState) (uid : Option Nat) (fid : Nat)
    (h : FilmLoanInv st) : FilmLoanInv (toggle_wunschliste st uid fid).2 := by
  unfold toggle_wunschliste
  repeat' (first | split | dsimp only)
  any_goals exact h
  all_goals {
    intro f hf
    rcases List.mem_map.mp hf with ⟨g, hg, rfl⟩
    split
    · exact h g hg
    · exact h g hg }

theorem verleihen_loanInv (st : AppState) (uid : Option Nat) (fid : Nat)
    (an dat : Option String) (now : Nat) (h : FilmLoanInv st) :
    FilmLoanInv (verleihen st uid fid an dat now).2 := by
  unfold verleihen
  repeat' (first | split | dsimp only)
  any_goals exact h
  all_goals {
    intro f hf
    rcases List.mem_map.mp hf with ⟨g, hg, rfl⟩
    split
    · rfl
    · exact h g hg }

theorem zurueckgeben_loanInv (st : AppState) (uid : Option Nat) (fid : Nat)
    (h : FilmLoanInv st) : FilmLoanInv (zurueckgeben st uid fid).2 := by
  unfold zurueckgeben
  repeat' (first | split | dsimp only)
  any_goals exact h
  all_goals {
    intro f hf
    rcases List.mem_map.mp hf with ⟨g, hg, rfl⟩
    split
    · rfl
    · exact h g hg }

theorem request_lending_loanInv (st : AppState) (sn : Option String) (fid : Nat)
    (h : FilmLoanInv st) : FilmLoanInv (request_lending st sn fid).2 := by
  unfold request_lending
  repeat' (first | split | dsimp only)
  all_goals exact h

theorem delete_lending_request_loanInv (st : AppState) (uid : Option Nat) (rid : Nat)
    (h : FilmLoanInv st) : FilmLoanInv (delete_lending_request st uid rid).2 := by
  unfold delete_lending_request
  repeat' (first | split | dsimp only)
  all_goals exact h

theorem add_benutzer_loanInv (gen : String → String) (st : AppState) (uid : Option Nat)
    (name pw : Option String) (h : FilmLoanInv st) :
    FilmLoanInv (add_benutzer gen st uid name pw).2 := by
  unfold add_benutzer
  repeat' (first | split | dsimp only)
  all_goals exact h

theorem delete_benutzer_loanInv (st : AppState) (uid : Option Nat) (target : Nat)
    (h : FilmLoanInv st) : FilmLoanInv (delete_benutzer st uid target).2 := by
  unfold delete_benutzer
  repeat' (first | split | dsimp only)
  all_goals exact h

theorem change_password_loanInv (check : String → String → Bool) (gen : String → String)
    (st : AppState) (uid : Option Nat) (old np npc : String) (h : FilmLoanInv st) :
    FilmLoanInv (change_password check gen st uid old np npc).2 := by
  unfold change_password
  repeat' (first | split | dsimp only)
  all_goals exact h

theorem delete_film_loanInv (st : AppState) (uid : Option Nat) (fid : Nat)
    (h : FilmLoanInv st) : FilmLoanInv (delete_film st uid fid).2 := by
  unfold delete_film
  repeat' (first | split | dsimp only)
  any_goals exact h
  all_goals {
    intro f hf
    exact h f (List.mem_filter.mp hf).1 }

theorem step_loanInv (op : Op) (st : AppState) (h : FilmLoanInv st) :
    FilmLoanInv (step op st) := by
  cases op with
  | opAddFilm uid tmdb fetched action => exact add_film_loanInv st uid tmdb fetched action h
  | opUpdateBesitzer uid fid b => exact update_besitzer_loanInv st uid fid b h
  | opToggleWunschliste uid fid => exact toggle_wunschliste_loanInv st uid fid h
  | opVerleihen uid fid an dat now => exact verleihen_loanInv st uid fid an dat now h
  | opZurueckgeben uid fid => exact zurueckgeben_loanInv st uid fid h
  | opRequestLending sn fid => exact request_lending_loanInv st sn fid h
  | opDeleteLendingRequest uid rid => exact delete_lending_request_loanInv st uid rid h
  | opAddBenutzer gen uid name pw => exact add_benutzer_loanInv gen st uid name pw h
  | opDeleteBenutzer uid target => exact delete_benutzer_loanInv st uid target h
  | opChangePassword check gen uid old np npc =>
      exact change_password_loanInv check gen st uid old np npc h
  | opDeleteFilm uid fid => exact delete_film_loanInv st uid fid h

theorem run_loanInv (ops : List Op) (st : AppState) (h : FilmLoanInv st) :
    FilmLoanInv (run ops st) := by
  induction ops generalizing st with
  | nil => exact h
  | cons op rest ih => exact ih (step op st) (step_loanInv op st h)

/-! ## Preservation of the one-open-request-per-pair invariant (C2) -/

theorem reqUnique_filter (st : AppState) (p : LendingRequest → Bool) (h : ReqUnique st) :
    (st.requests.filter p).Pairwise
      (fun a b => ¬(a.film_id = b.film_id ∧ a.borrower_id = b.borrower_id)) :=
  List.Pairwise.sublist (List.filter_sublist _) h

theorem add_film_reqUnique (st : AppState) (uid : Option Nat) (tmdb : Option String)
    (fetched : Option FilmData) (action : Option String) (h : ReqUnique st) :
    ReqUnique (add_film st uid tmdb fetched action).2 := by
  unfold add_film
  repeat' (first | split | dsimp only)
  all_goals exact h

theorem update_besitzer_reqUnique (st : AppState) (uid : Option Nat) (fid : Nat)
    (b : Option String) (h : ReqUnique st) :
    ReqUnique (update_besitzer st uid fid b).2 := by
  unfold update_besitzer
  repeat' (first | split | dsimp only)
  all_goals exact h

theorem toggle_wunschliste_reqUnique (st : AppState) (uid : Option Nat) (fid : Nat)
    (h : ReqUnique st) : ReqUnique (toggle_wunschliste st uid fid).2 := by
  unfold toggle_wunschliste
  repeat' (first | split | dsimp only)
  all_goals exact h

theorem verleihen_reqUnique (st : AppState) (uid : Option Nat) (fid : Nat)
    (an dat : Option String) (now : Nat) (h : ReqUnique st) :
    ReqUnique (verleihen st uid fid an dat now).2 := by
  unfold verleihen
  repeat' (first | split | dsimp only)
  any_goals exact h
  all_goals exact reqUnique_filter st _ h

theorem zurueckgeben_reqUnique (st : AppState) (uid : Option Nat) (fid : Nat)
    (h : ReqUnique st) : ReqUnique (zurueckgeben st uid fid).2 := by
  unfold zurueckgeben
  repeat' (first | split | dsimp only)
  all_goals exact h

theorem request_lending_reqUnique (st : AppState) (sn : Option String) (fid : Nat)
    (h : ReqUnique st) : ReqUnique (request_lending st sn fid).2 := by
  unfold request_lending
  repeat' (first | split | dsimp only)
  any_goals exact h
  all_goals {
    unfold ReqUnique
    rw [List.pairwise_append]
    refine ⟨h, List.pairwise_singleton _ _, ?_⟩
    intro a ha b hb
    rcases List.mem_singleton.mp hb with rfl
    rintro ⟨hfid, hbid⟩
    simp_all [List.find?_eq_none] }

theorem delete_lending_request_reqUnique (st : AppState) (uid : Option Nat) (rid : Nat)
    (h : ReqUnique st) : ReqUnique (delete_lending_request st uid rid).2 := by
  unfold delete_lending_request
  repeat' (first | split | dsimp only)
  any_goals exact h
  all_goals exact reqUnique_filter st _ h

theorem add_benutzer_reqUnique (gen : String → String) (st : AppState) (uid : Option Nat)
    (name pw : Option String) (h : ReqUnique st) :
    ReqUnique (add_benutzer gen st uid name pw).2 := by
  unfold add_benutzer
  repeat' (first | split | dsimp only)
  all_goals exact h

theorem delete_benutzer_reqUnique (st : AppState) (uid : Option Nat) (target : Nat)
    (h : ReqUnique st) : ReqUnique (delete_benutzer st uid target).2 := by
  unfold delete_benutzer
  repeat' (first | split | dsimp only)
  any_goals exact h
  all_goals exact reqUnique_filter st _ h

theorem change_password_reqUnique (check : String → String → Bool) (gen : String → String)
    (st : AppState) (uid : Option Nat) (old np npc : String) (h : ReqUnique st) :
    ReqUnique (change_password check gen st uid old np npc).2 := by
  unfold change_password
  repeat' (first | split | dsimp only)
  all_goals exact h

theorem delete_film_reqUnique (st : AppState) (uid : Option Nat) (fid : Nat)
    (h : ReqUnique st) : ReqUnique (delete_film st uid fid).2 := by
  unfold delete_film
  repeat' (first | split | dsimp only)
  any_goals exact h
  all_goals exact reqUnique_filter st _ h

theorem step_reqUnique (op : Op) (st : AppState) (h : ReqUnique st) :
    ReqUnique (step op st) := by
  cases op with
  | opAddFilm uid tmdb fetched action => exact add_film_reqUnique st uid tmdb fetched action h
  | opUpdateBesitzer uid fid b => exact update_besitzer_reqUnique st uid fid b h
  | opToggleWunschliste uid fid => exact toggle_wunschliste_reqUnique st uid fid h
  | opVerleihen uid fid an dat now => exact verleihen_reqUnique st uid fid an dat now h
  | opZurueckgeben uid fid => exact zurueckgeben_reqUnique st uid fid h
  | opRequestLending sn fid => exact request_lending_reqUnique st sn fid h
  | opDeleteLendingRequest uid rid => exact delete_lending_request_reqUnique st uid rid h
  | opAddBenutzer gen uid name pw => exact add_benutzer_reqUnique gen st uid name pw h
  | opDeleteBenutzer uid target => exact delete_benutzer_reqUnique st uid target h
  | opChangePassword check gen uid old np npc =>
      exact change_password_reqUnique check gen st uid old np npc h
  | opDeleteFilm uid fid => exact delete_film_reqUnique st uid fid h

theorem run_reqUnique (ops : List Op) (st : AppState) (h : ReqUnique st) :
    ReqUnique (run ops st) := by
  induction ops generalizing st with
  | nil => exact h
  | cons op rest ih => exact ih (step op st) (step_reqUnique op st h)

/-! ## Preservation of the unique-TMDb-id invariant (C7) -/

theorem tmdbUnique_map_of_preserves (g : Film → Film)
    (hg : ∀ f, (g f).tmdb_id = f.tmdb_id) {l : List Film}
    (h : l.Pairwise tmdbDistinct) : (l.map g).Pairwise tmdbDistinct := by
  refine List.Pairwise.map g ?_ h
  intro a b hab t hat hbt
  rw [hg a] at hat
  rw [hg b] at hbt
  exact hab t hat hbt

theorem add_film_tmdbUnique (st : AppState) (uid : Option Nat) (tmdb : Option String)
    (fetched : Option FilmData) (action : Option String) (h : TmdbUnique st) :
    TmdbUnique (add_film st uid tmdb fetched action).2 := by
  unfold add_film
  repeat' (first | split | dsimp only)
  any_goals exact h
  all_goals {
    unfold TmdbUnique
    rw [List.pairwise_append]
    refine ⟨h, List.pairwise_singleton _ _, ?_⟩
    intro a ha b hb
    rcases List.mem_singleton.mp hb with rfl
    intro t hat hbt
    simp_all [List.find?_eq_none] }

theorem update_besitzer_tmdbUnique (st : AppState) (uid : Option Nat) (fid : Nat)
    (b : Option String) (h : TmdbUnique st) :
    TmdbUnique (update_besitzer st uid fid b).2 := by
  unfold update_besitzer
  repeat' (first | split | dsimp only)
  any_goals exact h
  all_goals {
    unfold TmdbUnique
    refine tmdbUnique_map_of_preserves _ ?_ h
    intro f
    by_cases hc : (f.id == fid) = true
    · rw [if_pos hc]
    · rw [if_neg hc] }

theorem toggle_wunschliste_tmdbUnique (st : AppState) (uid : Option Nat) (fid : Nat)
    (h : TmdbUnique st) : TmdbUnique (toggle_wunschliste st uid fid).2 := by
  unfold toggle_wunschliste
  repeat' (first | split | dsimp only)
  any_goals exact h
  all_goals {
    unfold TmdbUnique
    refine tmdbUnique_map_of_preserves _ ?_ h
    intro f
    by_cases hc : (f.id == fid) = true
    · rw [if_pos hc]
    · rw [if_neg hc] }

theorem verleihen_tmdbUnique (st : AppState) (uid : Option Nat) (fid : Nat)
    (an dat : Option String) (now : Nat) (h : TmdbUnique st) :
    TmdbUnique (verleihen st uid fid an dat now).2 := by
  unfold verleihen
  repeat' (first | split | dsimp only)
  any_goals exact h
  all_goals {
    unfold TmdbUnique
    refine tmdbUnique_map_of_preserves _ ?_ h
    intro f
    by_cases hc : (f.id == fid) = true
    · rw [if_pos hc]
    · rw [if_neg hc] }

theorem zurueckgeben_tmdbUnique (st : AppState) (uid : Option Nat) (fid : Nat)
    (h : TmdbUnique st) : TmdbUnique (zurueckgeben st uid fid).2 := by
  unfold zurueckgeben
  repeat' (first | split | dsimp only)
  any_goals exact h
  all_goals {
    unfold TmdbUnique
    refine tmdbUnique_map_of_preserves _ ?_ h
    intro f
    by_cases hc : (f.id == fid) = true
    · rw [if_pos hc]
    · rw [if_neg hc] }

theorem request_lending_tmdbUnique (st : AppState) (sn : Option String) (fid : Nat)
    (h : TmdbUnique st) : TmdbUnique (request_lending st sn fid).2 := by
  unfold request_lending
  repeat' (first | split | dsimp only)
  all_goals exact h

theorem delete_lending_request_tmdbUnique (st : AppState) (uid : Option Nat) (rid : Nat)
    (h : TmdbUnique st) : TmdbUnique (delete_lending_request st uid rid).2 := by
  unfold delete_lending_request
  repeat' (first | split | dsimp only)
  all_goals exact h

theorem add_benutzer_tmdbUnique (gen : String → String) (st : AppState) (uid : Option Nat)
    (name pw : Option String) (h : TmdbUnique st) :
    TmdbUnique (add_benutzer gen st uid name pw).2 := by
  unfold add_benutzer
  repeat' (first | split | dsimp only)
  all_goals exact h

theorem delete_benutzer_tmdbUnique (st : AppState) (uid : Option Nat) (target : Nat)
    (h : TmdbUnique st) : TmdbUnique (delete_benutzer st uid target).2 := by
  unfold delete_benutzer
  repeat' (first | split | dsimp only)
  all_goals exact h

theorem change_password_tmdbUnique (check : String → String → Bool) (gen : String → String)
    (st : AppState) (uid : Option Nat) (old np npc : String) (h : TmdbUnique st) :
    TmdbUnique (change_password check gen st uid old np npc).2 := by
  unfold change_password
  repeat' (first | split | dsimp only)
  all_goals exact h

theorem delete_film_tmdbUnique (st : AppState) (uid : Option Nat) (fid : Nat)
    (h : TmdbUnique st) : TmdbUnique (delete_film st uid fid).2 := by
  unfold delete_film
  repeat' (first | split | dsimp only)
  any_goals exact h
  all_goals exact List.Pairwise.sublist (List.filter_sublist _) h

theorem step_tmdbUnique (op : Op) (st : AppState) (h : TmdbUnique st) :
    TmdbUnique (step op st) := by
  cases op with
  | opAddFilm uid tmdb fetched action => exact add_film_tmdbUnique st uid tmdb fetched action h
  | opUpdateBesitzer uid fid b => exact update_besitzer_tmdbUnique st uid fid b h
  | opToggleWunschliste uid fid => exact toggle_wunschliste_tmdbUnique st uid fid h
  | opVerleihen uid fid an dat now => exact verleihen_tmdbUnique st uid fid an dat now h
  | opZurueckgeben uid fid => exact zurueckgeben_tmdbUnique st uid fid h
  | opRequestLending sn fid => exact request_lending_tmdbUnique st sn fid h
  | opDeleteLendingRequest uid rid => exact delete_lending_request_tmdbUnique st uid rid h
  | opAddBenutzer gen uid name pw => exact add_benutzer_tmdbUnique gen st uid name pw h
  | opDeleteBenutzer uid target => exact delete_benutzer_tmdbUnique st uid target h
  | opChangePassword check gen uid old np npc =>
      exact change_password_tmdbUnique check gen st uid old np npc h
  | opDeleteFilm uid fid => exact delete_film_tmdbUnique st uid fid h

theorem run_tmdbUnique (ops : List Op) (st : AppState) (h : TmdbUnique st) :
    TmdbUnique (run ops st) := by
  induction ops generalizing st with
  | nil => exact h
  | cons op rest ih => exact ih (step op st) (step_tmdbUnique op st h)

/-! ## Branch characterization of `verleihen` and `zurueckgeben` -/

/-- The state `verleihen` commits on success: both loan fields of the film
are set and the borrower's pending requests for the film are deleted. -/
def loanApplied (st : AppState) (fid : Nat) (t : String) (u : Benutzer) (seit : Timestamp) :
    AppState :=
  { st with
      films := st.films.map (fun f =>
        if f.id == fid then { f with verliehen_an := some t, verliehen_seit := some seit } else f)
      requests := st.requests.filter (fun r => !(r.film_id == fid && r.borrower_id == u.id)) }

theorem verleihen_notFound (st : AppState) (uid fid : Nat) (an dat : Option String) (now : Nat)
    (h : findFilm st fid = none) :
    verleihen st (some uid) fid an dat now = (.notFound, st) := by
  unfold verleihen
  rw [h]

theorem verleihen_no_target (st : AppState) (uid fid : Nat) (an dat : Option String)
    (now : Nat) (film : Film) (hfilm : findFilm st fid = some film)
    (htr : truthy an = false) :
    verleihen st (some uid) fid an dat now = (.err "Bitte einen Benutzer auswählen", st) := by
  unfold verleihen
  rw [hfilm]
  simp [htr]

theorem verleihen_unknown_user (st : AppState) (uid fid : Nat) (t : String)
    (dat : Option String) (now : Nat) (film : Film)
    (hfilm : findFilm st fid = some film) (ht : t ≠ "")
    (hbu : findUserByName st t = none) :
    verleihen st (some uid) fid (some t) dat now =
      (.err ("Benutzer '" ++ t ++ "' nicht gefunden"), st) := by
  have htt : truthy (some t) = true := by simp [truthy, ht]
  unfold verleihen
  simp only [hfilm, htt]
  simp [hbu]

theorem verleihen_already_loaned (st : AppState) (uid fid : Nat) (t : String)
    (dat : Option String) (now : Nat) (film : Film) (u : Benutzer)
    (hfilm : findFilm st fid = some film) (ht : t ≠ "")
    (hbu : findUserByName st t = some u) (hl : truthy film.verliehen_an = true) :
    verleihen st (some uid) fid (some t) dat now =
      (.warn ("Film ist bereits an " ++ film.verliehen_an.getD "" ++ " verliehen"), st) := by
  have htt : truthy (some t) = true := by simp [truthy, ht]
  unfold verleihen
  simp only [hfilm, htt]
  simp [hbu, hl]

theorem verleihen_bad_date (st : AppState) (uid fid : Nat) (t ds : String)
    (now : Nat) (film : Film) (u : Benutzer)
    (hfilm : findFilm st fid = some film) (ht : t ≠ "")
    (hbu : findUserByName st t = some u) (hnl : truthy film.verliehen_an = false)
    (hds : ds ≠ "") (hp : strptimeYmd ds = none) :
    verleihen st (some uid) fid (some t) (some ds) now = (.err "Ungültiges Datum", st) := by
  have htt : truthy (some t) = true := by simp [truthy, ht]
  have htd : truthy (some ds) = true := by simp [truthy, hds]
  unfold verleihen
  simp only [hfilm, htt, htd]
  simp [hbu, hnl, hp]

theorem verleihen_ok_now (st : AppState) (uid fid : Nat) (t : String) (u : Benutzer)
    (film : Film) (dat : Option String) (now : Nat)
    (hfilm : findFilm st fid = some film) (ht : t ≠ "")
    (hbu : findUserByName st t = some u) (hnl : truthy film.verliehen_an = false)
    (hdat : truthy dat = false) :
    verleihen st (some uid) fid (some t) dat now = (.ok "", loanApplied st fid t u (.now now)) := by
  have htt : truthy (some t) = true := by simp [truthy, ht]
  unfold verleihen
  simp only [hfilm, htt, hdat]
  simp [hbu, hnl, loanApplied]

theorem verleihen_ok_date (st : AppState) (uid fid : Nat) (t ds : String) (u : Benutzer)
    (film : Film) (now y m d : Nat)
    (hfilm : findFilm st fid = some film) (ht : t ≠ "")
    (hbu : findUserByName st t = some u) (hnl : truthy film.verliehen_an = false)
    (hds : ds ≠ "") (hp : strptimeYmd ds = some (y, m, d)) :
    verleihen st (some uid) fid (some t) (some ds) now =
      (.ok "", loanApplied st fid t u (.date y m d)) := by
  have htt : truthy (some t) = true := by simp [truthy, ht]
  have htd : truthy (some ds) = true := by simp [truthy, hds]
  unfold verleihen
  simp only [hfilm, htt, htd]
  simp [hbu, hnl, hp, loanApplied]

theorem zurueckgeben_not_loaned (st : AppState) (uid fid : Nat) (film : Film)
    (hfilm : findFilm st fid = some film) (hl : truthy film.verliehen_an = false) :
    zurueckgeben st (some uid) fid = (.warn "Film ist nicht verliehen", st) := by
  unfold zurueckgeben
  rw [hfilm]
  simp [hl]

theorem zurueckgeben_ok (st : AppState) (uid fid : Nat) (film : Film)
    (hfilm : findFilm st fid = some film) (hl : truthy film.verliehen_an = true) :
    zurueckgeben st (some uid) fid =
      (.ok "", { st with films := st.films.map (fun f =>
        if f.id == fid then { f with verliehen_an := none, verliehen_seit := none } else f) }) := by
  unfold zurueckgeben
  rw [hfilm]
  simp [hl]

/-! ## Concrete fixtures for witnesses -/

/-- Demo admin user. -/
def alice : Benutzer := { id := 1, name := "alice", password_hash := "pbkdf2:a", is_admin := true }

/-- Demo regular user. -/
def bob : Benutzer := { id := 2, name := "bob", password_hash := "pbkdf2:b", is_admin := false }

/-- Demo film owned by alice, not loaned. -/
def alien : Film :=
  { id := 1, title := "Alien", year := some 1979, beschreibung := none, tmdb_id := some "348",
    poster_url := none, besitzer := some "alice", verliehen_an := none, verliehen_seit := none,
    genres := "Horror, Science Fiction", wunschliste := false }

/-- Demo database: one film, two users, no requests. -/
def demoState : AppState :=
  { films := [alien], requests := [], users := [alice, bob],
    nextFilmId := 2, nextRequestId := 1, nextUserId := 3 }

/-- Demo database with one open request by bob for film 1. -/
def demoStateReq : AppState :=
  { demoState with
      requests := [{ id := 1, borrower_id := 2, owner_id := 1, film_id := 1 }]
      nextRequestId := 2 }

/-- Demo TMDb fetch result matching `alien`'s id. -/
def alienData : FilmData :=
  { title := "Alien", release_date := some "1979-05-25", overview := some "Weltraum",
    tmdb_id := "348", poster_url := none, genres := "Horror, Science Fiction" }

/-! ## Claim theorems -/

/-- C1: for every film and every sequence of operations (loan transition,
return transition, film creation, request filing — and every other
state-changing route), every reachable state keeps each film's borrower
name (`verliehen_an`) and loan timestamp (`verliehen_seit`) both set or
both clear. -/
theorem loan_fields_both_set_or_both_clear (ops : List Op) (st0 : AppState)
    (h : FilmLoanInv st0) : FilmLoanInv (run ops st0) :=
  run_loanInv ops st0 h

theorem loan_fields_both_set_or_both_clear_witness :
    FilmLoanInv demoState ∧
      FilmLoanInv (run [Op.opVerleihen (some 1) 1 (some "bob") none 5,
        Op.opZurueckgeben (some 1) 1] demoState) :=
  ⟨by decide, loan_fields_both_set_or_both_clear _ demoState (by decide)⟩

/-- C2: in every state reachable from a state satisfying the invariant, at
most one open `LendingRequest` row exists per (film, borrower) pair; and
when an open request by the session user for the film already exists, a
second filing leaves the state unchanged (no second row). -/
theorem at_most_one_open_request_per_pair :
    (∀ (ops : List Op) (st0 : AppState), ReqUnique st0 → ReqUnique (run ops st0)) ∧
    (∀ (st : AppState) (sn : String) (fid : Nat) (benutzer : Benutzer) (r : LendingRequest),
      findUserByName st sn = some benutzer →
      r ∈ st.requests → r.film_id = fid → r.borrower_id = benutzer.id →
      (request_lending st (some sn) fid).2 = st) := by
  constructor
  · exact fun ops st0 h => run_reqUnique ops st0 h
  · intro st sn fid benutzer r hbu hr hfid hbid
    unfold request_lending
    simp only [hbu]
    repeat' (first | split | dsimp only)
    all_goals { exfalso; simp_all [List.find?_eq_none] }

theorem at_most_one_open_request_per_pair_witness :
    ReqUnique (run [Op.opRequestLending (some "bob") 1,
        Op.opRequestLending (some "bob") 1] demoState) ∧
      (request_lending demoStateReq (some "bob") 1).2 = demoStateReq :=
  ⟨at_most_one_open_request_per_pair.1 _ demoState (by decide),
   at_most_one_open_request_per_pair.2 demoStateReq "bob" 1 bob
     { id := 1, borrower_id := 2, owner_id := 1, film_id := 1 }
     (by decide) (by decide) (by decide) (by decide)⟩

/-- C7: adding a film whose TMDb id already matches a catalog row leaves
the `Film` table (indeed the whole state) unchanged and surfaces a warning;
and the per-TMDb-id uniqueness of film rows is preserved by every sequence
of operations. -/
theorem no_duplicate_film_by_tmdb_id :
    (∀ (st : AppState) (uid : Nat) (tin : Option String) (data : FilmData)
        (action : Option String) (existing : Film),
      truthy tin = true → existing ∈ st.films → existing.tmdb_id = some data.tmdb_id →
      (add_film st (some uid) tin (some data) action).2 = st ∧
        ∃ m, (add_film st (some uid) tin (some data) action).1 = .warn m) ∧
    (∀ (ops : List Op) (st0 : AppState), TmdbUnique st0 → TmdbUnique (run ops st0)) := by
  constructor
  · intro st uid tin data action existing htin hmem htid
    have hsome : (st.films.find? (fun f => f.tmdb_id == some data.tmdb_id)).isSome := by
      rw [List.find?_isSome]
      exact ⟨existing, hmem, by simp [htid]⟩
    rcases Option.isSome_iff_exists.mp hsome with ⟨e2, he2⟩
    unfold add_film
    simp only [htin, he2]
    simp
  · exact fun ops st0 h => run_tmdbUnique ops st0 h

theorem no_duplicate_film_by_tmdb_id_witness :
    ((add_film demoState (some 1) (some "348") (some alienData) none).2 = demoState ∧
      ∃ m, (add_film demoState (some 1) (some "348") (some alienData) none).1 = .warn m) ∧
      TmdbUnique (run [Op.opAddFilm (some 1) (some "348") (some alienData) none] demoState) :=
  ⟨no_duplicate_film_by_tmdb_id.1 demoState 1 (some "348") alienData none alien (by decide)
      (by decide) (by decide),
   no_duplicate_film_by_tmdb_id.2 _ demoState (by decide)⟩

/-- Membership in the request-deletion filter used by `verleihen`. -/
theorem mem_filter_pair (l : List LendingRequest) (fid bid : Nat) (r : LendingRequest)
    (hr : r ∈ l) :
    (r ∈ l.filter (fun x => !(x.film_id == fid && x.borrower_id == bid))) ↔
      ¬(r.film_id = fid ∧ r.borrower_id = bid) := by
  simp [List.mem_filter, hr]
  tauto

/-- C3: when the loan transition succeeds for film `fid` and borrower `t`
(who has a pending request for the film), the resulting request table is
exactly the old one with every request by that borrower for that film
removed — each original row survives iff it is not such a request — and
the user table is untouched. -/
theorem approve_deletes_exactly_borrowers_request
    (st : AppState) (uid fid : Nat) (t : String) (u : Benutzer) (film : Film)
    (dat : Option String) (now : Nat)
    (hfilm : findFilm st fid = some film)
    (hbu : findUserByName st t = some u)
    (_hpend : ∃ r ∈ st.requests, r.film_id = fid ∧ r.borrower_id = u.id)
    (hok : (verleihen st (some uid) fid (some t) dat now).1 = .ok "") :
    (verleihen st (some uid) fid (some t) dat now).2.requests
        = st.requests.filter (fun r => !(r.film_id == fid && r.borrower_id == u.id)) ∧
      (∀ r ∈ st.requests,
        r ∈ (verleihen st (some uid) fid (some t) dat now).2.requests ↔
          ¬(r.film_id = fid ∧ r.borrower_id = u.id)) ∧
      (verleihen st (some uid) fid (some t) dat now).2.users = st.users := by
  by_cases ht : t = ""
  · rw [verleihen_no_target st uid fid (some t) dat now film hfilm (by simp [truthy, ht])] at hok
    simp at hok
  by_cases hl : truthy film.verliehen_an = true
  · rw [verleihen_already_loaned st uid fid t dat now film u hfilm ht hbu hl] at hok
    simp at hok
  have hnl : truthy film.verliehen_an = false := by simpa using hl
  rcases dat with _ | ds
  · rw [verleihen_ok_now st uid fid t u film none now hfilm ht hbu hnl rfl]
    exact ⟨rfl, fun r hr => mem_filter_pair st.requests fid u.id r hr, rfl⟩
  · by_cases hds : ds = ""
    · rw [verleihen_ok_now st uid fid t u film (some ds) now hfilm ht hbu hnl
        (by simp [truthy, hds])]
      exact ⟨rfl, fun r hr => mem_filter_pair st.requests fid u.id r hr, rfl⟩
    · rcases hp : strptimeYmd ds with _ | ⟨y, m, d⟩
      · rw [verleihen_bad_date st uid fid t ds now film u hfilm ht hbu hnl hds hp] at hok
        simp at hok
      · rw [verleihen_ok_date st uid fid t ds u film now y m d hfilm ht hbu hnl hds hp]
        exact ⟨rfl, fun r hr => mem_filter_pair st.requests fid u.id r hr, rfl⟩

theorem approve_deletes_exactly_borrowers_request_witness :
    (verleihen demoStateReq (some 1) 1 (some "bob") none 7).2.requests
      = demoStateReq.requests.filter (fun r => !(r.film_id == 1 && r.borrower_id == 2)) :=
  (approve_deletes_exactly_borrowers_request demoStateReq 1 1 "bob" bob alien none 7
    (by decide) (by decide)
    ⟨{ id := 1, borrower_id := 2, owner_id := 1, film_id := 1 }, by decide, by decide, by decide⟩
    (by decide)).1

/-- C4: with the film present, the loan transition (i) fails unchanged on a
missing target, (ii) on an unknown target user, (iii) on an already-loaned
film, and (iv) on an unparsable supplied date; it succeeds exactly
otherwise, committing atomically with loan timestamp `datetime.now()` when
no date is supplied (v) or the parsed date (vi). -/
theorem verleihen_validation_and_atomicity
    (st : AppState) (uid fid : Nat) (film : Film)
    (hfilm : findFilm st fid = some film) :
    (∀ (an dat : Option String) (now : Nat), truthy an = false →
      verleihen st (some uid) fid an dat now = (.err "Bitte einen Benutzer auswählen", st)) ∧
    (∀ (t : String) (dat : Option String) (now : Nat), t ≠ "" → findUserByName st t = none →
      verleihen st (some uid) fid (some t) dat now
        = (.err ("Benutzer '" ++ t ++ "' nicht gefunden"), st)) ∧
    (∀ (t : String) (u : Benutzer) (dat : Option String) (now : Nat),
      t ≠ "" → findUserByName st t = some u → truthy film.verliehen_an = true →
      verleihen st (some uid) fid (some t) dat now
        = (.warn ("Film ist bereits an " ++ film.verliehen_an.getD "" ++ " verliehen"), st)) ∧
    (∀ (t ds : String) (u : Benutzer) (now : Nat),
      t ≠ "" → findUserByName st t = some u → truthy film.verliehen_an = false →
      ds ≠ "" → strptimeYmd ds = none →
      verleihen st (some uid) fid (some t) (some ds) now = (.err "Ungültiges Datum", st)) ∧
    (∀ (t : String) (u : Benutzer) (dat : Option String) (now : Nat),
      t ≠ "" → findUserByName st t = some u → truthy film.verliehen_an = false →
      truthy dat = false →
      verleihen st (some uid) fid (some t) dat now
        = (.ok "", loanApplied st fid t u (.now now))) ∧
    (∀ (t ds : String) (u : Benutzer) (now y m d : Nat),
      t ≠ "" → findUserByName st t = some u → truthy film.verliehen_an = false →
      ds ≠ "" → strptimeYmd ds = some (y, m, d) →
      verleihen st (some uid) fid (some t) (some ds) now
        = (.ok "", loanApplied st fid t u (.date y m d))) := by
  refine ⟨?_, ?_, ?_, ?_, ?_, ?_⟩
  · exact fun an dat now htr => verleihen_no_target st uid fid an dat now film hfilm htr
  · exact fun t dat now ht hbu => verleihen_unknown_user st uid fid t dat now film hfilm ht hbu
  · exact fun t u dat now ht hbu hl =>
      verleihen_already_loaned st uid fid t dat now film u hfilm ht hbu hl
  · exact fun t ds u now ht hbu hnl hds hp =>
      verleihen_bad_date st uid fid t ds now film u hfilm ht hbu hnl hds hp
  · exact fun t u dat now ht hbu hnl hdat =>
      verleihen_ok_now st uid fid t u film dat now hfilm ht hbu hnl hdat
  · exact fun t ds u now y m d ht hbu hnl hds hp =>
      verleihen_ok_date st uid fid t ds u film now y m d hfilm ht hbu hnl hds hp

theorem verleihen_validation_and_atomicity_witness :
    verleihen demoState (some 2) 1 (some "bob") none 9
        = (.ok "", loanApplied demoState 1 "bob" bob (.now 9)) ∧
      verleihen demoState (some 2) 1 (some "zoe") none 9
        = (.err ("Benutzer '" ++ "zoe" ++ "' nicht gefunden"), demoState) ∧
      verleihen demoState (some 2) 1 (some "bob") (some "2024-13-01") 9
        = (.err "Ungültiges Datum", demoState) :=
  ⟨(verleihen_validation_and_atomicity demoState 2 1 alien (by decide)).2.2.2.2.1 "bob" bob
      none 9 (by decide) (by decide) (by decide) (by decide),
   (verleihen_validation_and_atomicity demoState 2 1 alien (by decide)).2.1 "zoe" none 9
      (by decide) (by decide),
   (verleihen_validation_and_atomicity demoState 2 1 alien (by decide)).2.2.2.1 "bob"
      "2024-13-01" bob 9 (by decide) (by decide) (by decide) (by decide) (by decide)⟩

/-- C9: the loan and return transitions check only that a session exists:
for an arbitrary session id `uid` — owner or not, admin or not, even a
stale id naming no user — lending an un-loaned film to any existing user
succeeds, and returning a loaned film succeeds. -/
theorem lending_routes_require_only_login :
    (∀ (st : AppState) (uid fid now : Nat) (t : String) (u : Benutzer) (film : Film),
      findFilm st fid = some film → t ≠ "" → findUserByName st t = some u →
      truthy film.verliehen_an = false →
      verleihen st (some uid) fid (some t) none now
        = (.ok "", loanApplied st fid t u (.now now))) ∧
    (∀ (st : AppState) (uid fid : Nat) (film : Film),
      findFilm st fid = some film → truthy film.verliehen_an = true →
      zurueckgeben st (some uid) fid
        = (.ok "", { st with films := st.films.map (fun f =>
            if f.id == fid then { f with verliehen_an := none, verliehen_seit := none }
            else f) })) := by
  constructor
  · exact fun st uid fid now t u film hfilm ht hbu hnl =>
      verleihen_ok_now st uid fid t u film none now hfilm ht hbu hnl rfl
  · exact fun st uid fid film hfilm hl => zurueckgeben_ok st uid fid film hfilm hl

/-- Demo state with the film loaned to bob. -/
def demoLoaned : AppState :=
  { demoState with
      films := [{ alien with verliehen_an := some "bob", verliehen_seit := some (.now 3) }] }

theorem lending_routes_require_only_login_witness :
    verleihen demoState (some 99) 1 (some "bob") none 3
        = (.ok "", loanApplied demoState 1 "bob" bob (.now 3)) ∧
      zurueckgeben demoLoaned (some 99) 1
        = (.ok "", { demoLoaned with films := demoLoaned.films.map (fun f =>
            if f.id == 1 then { f with verliehen_an := none, verliehen_seit := none }
            else f) }) :=
  ⟨lending_routes_require_only_login.1 demoState 99 1 3 "bob" bob alien (by decide) (by decide)
      (by decide) (by decide),
   lending_routes_require_only_login.2 demoLoaned 99 1
      { alien with verliehen_an := some "bob", verliehen_seit := some (.now 3) }
      (by decide) (by decide)⟩

/-- C5: for a logged-in user filing a lending request on an existing film,
any violated precondition (film has no owner, wishlist entry, already
loaned, requester is the owner, or an open request by the requester
already exists) makes the operation a silent no-op — plain redirect, no
error, no state change; when every precondition holds (and the owner name
resolves to a user row), exactly one request row from the requester
against the film's owner is inserted. -/
theorem request_filing_silent_noop_or_single_insert
    (st : AppState) (sn : String) (fid : Nat) (benutzer : Benutzer) (film : Film)
    (hbu : findUserByName st sn = some benutzer)
    (hfilm : findFilm st fid = some film) :
    ((truthy film.besitzer = false ∨ film.wunschliste = true ∨
        truthy film.verliehen_an = true ∨ film.besitzer = some benutzer.name ∨
        (∃ r ∈ st.requests, r.film_id = fid ∧ r.borrower_id = benutzer.id)) →
      request_lending st (some sn) fid = (.ok "", st)) ∧
    (∀ owner : Benutzer,
      truthy film.besitzer = true → film.wunschliste = false →
      truthy film.verliehen_an = false → film.besitzer ≠ some benutzer.name →
      (∀ r ∈ st.requests, ¬(r.film_id = fid ∧ r.borrower_id = benutzer.id)) →
      findUserByName st (film.besitzer.getD "") = some owner →
      request_lending st (some sn) fid = (.ok "",
        { st with
            requests := st.requests ++
              [{ id := st.nextRequestId, borrower_id := benutzer.id,
                 owner_id := owner.id, film_id := fid }]
            nextRequestId := st.nextRequestId + 1 })) := by
  constructor
  · intro hviol
    unfold request_lending
    simp only [hbu, hfilm]
    repeat' (first | split | dsimp only)
    all_goals
      first
        | rfl
        | (exfalso
           rcases hviol with h | h | h | h | ⟨r, hr, hf2, hb2⟩ <;>
             simp_all [List.find?_eq_none])
  · intro owner h1 h2 h3 h4 h5 howner
    have hbeq : (film.besitzer == some benutzer.name) = false := beq_eq_false_iff_ne.mpr h4
    have hfind : st.requests.find?
        (fun r => r.film_id == fid && r.borrower_id == benutzer.id) = none := by
      rw [List.find?_eq_none]
      intro x hx
      simpa using h5 x hx
    unfold request_lending
    simp only [hbu, hfilm, h1, h2, h3, hbeq, hfind, howner]
    simp

theorem request_filing_silent_noop_or_single_insert_witness :
    request_lending demoState (some "bob") 1 = (.ok "",
      { demoState with
          requests := demoState.requests ++
            [{ id := 1, borrower_id := 2, owner_id := 1, film_id := 1 }]
          nextRequestId := 2 }) ∧
      request_lending demoStateReq (some "bob") 1 = (.ok "", demoStateReq) :=
  ⟨(request_filing_silent_noop_or_single_insert demoState "bob" 1 bob alien
      (by decide) (by decide)).2 alice (by decide) (by decide) (by decide) (by decide)
      (by simp [demoState]) (by decide),
   (request_filing_silent_noop_or_single_insert demoStateReq "bob" 1 bob alien
      (by decide) (by decide)).1
     (Or.inr (Or.inr (Or.inr (Or.inr
       ⟨{ id := 1, borrower_id := 2, owner_id := 1, film_id := 1 },
        by decide, by decide, by decide⟩))))⟩

/-- C6: for an admin session, deleting a user who owns at least one film
(by owner-name match) fails with an error and changes nothing; deleting a
user who owns zero films removes exactly that user row and every
`LendingRequest` row naming the user as borrower or owner, leaving films
and everything else unchanged. -/
theorem delete_user_requires_zero_owned_films
    (st : AppState) (uid target : Nat) (admin user : Benutzer)
    (hadm : findUserById st uid = some admin) (hIsAdm : admin.is_admin = true)
    (huser : findUserById st target = some user) :
    ((∃ f ∈ st.films, f.besitzer = some user.name) →
      delete_benutzer st (some uid) target
        = (.err ("Benutzer '" ++ user.name ++ "' kann nicht gelöscht werden"), st)) ∧
    ((∀ f ∈ st.films, f.besitzer ≠ some user.name) →
      delete_benutzer st (some uid) target
        = (.ok ("Benutzer '" ++ user.name ++ "' wurde gelöscht"),
          { st with
              requests := st.requests.filter (fun r =>
                !(r.borrower_id == target || r.owner_id == target))
              users := st.users.filter (fun u => u.id != target) })) := by
  have hchk : checkAdmin st (some uid) = none := by
    unfold checkAdmin
    simp [hadm, hIsAdm]
  constructor
  · rintro ⟨f, hf, hbes⟩
    have hpos : 0 < (st.films.filter (fun x => x.besitzer == some user.name)).length := by
      apply List.length_pos.mpr
      exact List.ne_nil_of_mem (List.mem_filter.mpr ⟨hf, by simp [hbes]⟩)
    unfold delete_benutzer
    simp only [hchk, huser]
    simp [hpos]
  · intro hzero
    have hnil : st.films.filter (fun x => x.besitzer == some user.name) = [] := by
      rw [List.filter_eq_nil_iff]
      intro f hf
      simpa using hzero f hf
    unfold delete_benutzer
    simp only [hchk, huser]
    simp [hnil]

theorem delete_user_requires_zero_owned_films_witness :
    delete_benutzer demoStateReq (some 1) 2
        = (.ok ("Benutzer '" ++ "bob" ++ "' wurde gelöscht"),
          { demoStateReq with
              requests := demoStateReq.requests.filter (fun r =>
                !(r.borrower_id == 2 || r.owner_id == 2))
              users := demoStateReq.users.filter (fun u => u.id != 2) }) ∧
      delete_benutzer demoStateReq (some 1) 1
        = (.err ("Benutzer '" ++ "alice" ++ "' kann nicht gelöscht werden"), demoStateReq) :=
  ⟨(delete_user_requires_zero_owned_films demoStateReq 1 2 alice bob
      (by decide) (by decide) (by decide)).2 (by decide),
   (delete_user_requires_zero_owned_films demoStateReq 1 1 alice alice
      (by decide) (by decide) (by decide)).1 ⟨alien, by decide, by decide⟩⟩

/-! ## Listing-filter lemmas (C8) -/

theorem mem_of_genreStage (l : List Film) (g : String) (f : Film)
    (hf : f ∈ genreStage l g) : f ∈ l := by
  unfold genreStage at hf
  split at hf
  · exact (List.mem_filter.mp hf).1
  · exact hf

theorem mem_of_wunschStage (l : List Film) (w : String) (f : Film)
    (hf : f ∈ wunschStage l w) : f ∈ l := by
  unfold wunschStage at hf
  split at hf
  · exact (List.mem_filter.mp hf).1
  · split at hf
    · exact (List.mem_filter.mp hf).1
    · exact hf

theorem jahrBis_mem (l : List Film) (jb : String) (v : Int) (f : Film)
    (hjb : jb ≠ "") (hv : pyInt jb = some v) (hf : f ∈ jahrBisStage l jb) :
    f ∈ l ∧ (match f.year with | some y => decide (y ≤ v) | none => false) = true := by
  unfold jahrBisStage at hf
  rw [hv] at hf
  rw [if_pos (by simp [hjb])] at hf
  exact List.mem_filter.mp hf

theorem jahrVon_mem (l : List Film) (jv : String) (v : Int) (f : Film)
    (hjv : jv ≠ "") (hv : pyInt jv = some v) (hf : f ∈ jahrVonStage l jv) :
    f ∈ l ∧ (match f.year with | some y => decide (v ≤ y) | none => false) = true := by
  unfold jahrVonStage at hf
  rw [hv] at hf
  rw [if_pos (by simp [hjv])] at hf
  exact List.mem_filter.mp hf

theorem jahrVonStage_skip (l : List Film) (jv : String) (h : pyInt jv = none) :
    jahrVonStage l jv = l := by
  unfold jahrVonStage
  rw [h]
  split <;> rfl

theorem jahrBisStage_skip (l : List Film) (jb : String) (h : pyInt jb = none) :
    jahrBisStage l jb = l := by
  unfold jahrBisStage
  rw [h]
  split <;> rfl

/-- C8: listing with `jahr_von=2000` and `jahr_bis=2010` returns only
films whose year is present and lies in the inclusive range [2000, 2010];
and a lower or upper bound that `int(...)` cannot parse is silently
ignored — the result is as if that bound had not been supplied (the
handler never returns an error). -/
theorem year_filter_inclusive_and_nonnumeric_ignored :
    (∀ (films : List Film) (b w g : String) (f : Film),
      f ∈ index_filter films b "2000" "2010" w g →
      ∃ y : Int, f.year = some y ∧ 2000 ≤ y ∧ y ≤ 2010) ∧
    (∀ (films : List Film) (b jv jb w g : String),
      pyInt jv = none → index_filter films b jv jb w g = index_filter films b "" jb w g) ∧
    (∀ (films : List Film) (b jv jb w g : String),
      pyInt jb = none → index_filter films b jv jb w g = index_filter films b jv "" w g) := by
  refine ⟨?_, ?_, ?_⟩
  · intro films b w g f hf
    unfold index_filter at hf
    have hf3 := mem_of_wunschStage _ _ _ (mem_of_genreStage _ _ _ hf)
    obtain ⟨hf2, hp10⟩ := jahrBis_mem _ _ 2010 f (by decide) (by decide) hf3
    obtain ⟨hf1, hp00⟩ := jahrVon_mem _ _ 2000 f (by decide) (by decide) hf2
    rcases hy : f.year with _ | y
    · rw [hy] at hp00
      simp at hp00
    · rw [hy] at hp00 hp10
      simp at hp00 hp10
      exact ⟨y, rfl, hp00, hp10⟩
  · intro films b jv jb w g h
    unfold index_filter
    rw [jahrVonStage_skip _ _ h, jahrVonStage_skip _ _ (by decide)]
  · intro films b jv jb w g h
    unfold index_filter
    rw [jahrBisStage_skip _ _ h, jahrBisStage_skip _ _ (by decide)]

/-- Demo film with a year inside [2000, 2010]. -/
def madagascar : Film :=
  { id := 2, title := "Madagascar", year := some 2005, beschreibung := none,
    tmdb_id := some "953", poster_url := none, besitzer := some "bob",
    verliehen_an := none, verliehen_seit := none, genres := "Animation, Comedy",
    wunschliste := false }

theorem year_filter_inclusive_and_nonnumeric_ignored_witness :
    (∃ y : Int, madagascar.year = some y ∧ 2000 ≤ y ∧ y ≤ 2010) ∧
      index_filter [alien, madagascar] "" "abc" "2010" "" ""
        = index_filter [alien, madagascar] "" "" "2010" "" "" :=
  ⟨year_filter_inclusive_and_nonnumeric_ignored.1 [alien, madagascar] "" "" "" madagascar
      (by decide),
   year_filter_inclusive_and_nonnumeric_ignored.2.1 [alien, madagascar] "" "abc" "2010" "" ""
      (by decide)⟩

/-- C10: with the session user present, the password change errors and
leaves everything unchanged exactly when the old password fails the hash
check, or the two new-password fields differ, or the new password is
shorter than 3 characters (which covers empty); otherwise it replaces only
that user's stored hash with the hash of the new password. -/
theorem change_password_validation
    (check : String → String → Bool) (gen : String → String)
    (st : AppState) (uid : Nat) (user : Benutzer)
    (hu : findUserById st uid = some user) :
    (∀ old np npc : String, check user.password_hash old = false →
      change_password check gen st (some uid) old np npc
        = (.err "Altes Passwort ist falsch", st)) ∧
    (∀ old np npc : String, check user.password_hash old = true → np ≠ npc →
      change_password check gen st (some uid) old np npc
        = (.err "Neue Passwörter stimmen nicht überein", st)) ∧
    (∀ old np npc : String, check user.password_hash old = true → np = npc →
      np.length < 3 →
      change_password check gen st (some uid) old np npc
        = (.err "Neues Passwort muss mindestens 3 Zeichen lang sein", st)) ∧
    (∀ old np npc : String, check user.password_hash old = true → np = npc →
      ¬np.length < 3 →
      change_password check gen st (some uid) old np npc
        = (.ok "Passwort erfolgreich geändert",
          { st with users := st.users.map (fun u =>
              if u.id == uid then { u with password_hash := gen np } else u) })) := by
  refine ⟨?_, ?_, ?_, ?_⟩
  · intro old np npc hc
    unfold change_password
    simp only [hu, hc]
    simp
  · intro old np npc hc hne
    have hb : (np != npc) = true := by simp [hne]
    unfold change_password
    simp only [hu, hc, hb]
    simp
  · intro old np npc hc he hlen
    have hb : (np != npc) = false := by simp [he]
    have hd : decide (np.length < 3) = true := decide_eq_true hlen
    unfold change_password
    simp only [hu, hc, hb, hd]
    simp
  · intro old np npc hc he hlen
    have hb : (np != npc) = false := by simp [he]
    have hd : decide (np.length < 3) = false := decide_eq_false hlen
    have hne : (np == "") = false := by
      by_cases h : np = ""
      · exact absurd (by simp [h]) hlen
      · simp [h]
    unfold change_password
    simp only [hu, hc, hb, hd, hne]
    simp

/-- Demo hash function standing in for werkzeug's `generate_password_hash`. -/
def demoGen (p : String) : String := "pbkdf2:" ++ p

/-- Demo hash check standing in for werkzeug's `check_password_hash`. -/
def demoCheck (h p : String) : Bool := h == demoGen p

theorem change_password_validation_witness :
    change_password demoCheck demoGen demoState (some 2) "b" "neu" "neu"
        = (.ok "Passwort erfolgreich geändert",
          { demoState with users := demoState.users.map (fun u =>
              if u.id == 2 then { u with password_hash := demoGen "neu" } else u) }) ∧
      change_password demoCheck demoGen demoState (some 2) "falsch" "neu" "neu"
        = (.err "Altes Passwort ist falsch", demoState) :=
  ⟨(change_password_validation demoCheck demoGen demoState 2 bob (by decide)).2.2.2
      "b" "neu" "neu" (by decide) rfl (by decide),
   (change_password_validation demoCheck demoGen demoState 2 bob (by decide)).1
      "falsch" "neu" "neu" (by decide)⟩
